import Mathlib

/-!
Verification of `kaggle_dataset_downloader.py`.

The script has three functions acting on the current working directory:

* `download_datasets` iterates a hard-coded list of Kaggle dataset
  identifiers, runs `subprocess.run(['kaggle', 'datasets', 'download', d])`
  for each, and calls `unzip_datasets d` right after each download;
* `unzip_datasets d` computes `zip_file = f"{d.split('/')[-1]}.zip"`, and if
  that file exists it calls `shutil.unpack_archive zip_file` and then
  `os.remove zip_file`;
* `organize_datasets` calls `os.makedirs(c, exist_ok=True)` for each of four
  category names.

We embed the working directory as a flat namespace of file names plus a set
of directory names.  External behaviour (what each archive contains, whether
unpacking it raises, the exit status of the download subprocess) is an
environment parameter.  Calls to the subprocess, to the extractor and to the
organizer are recorded in an event trace so that ordering properties can be
stated.  Exceptions are modelled by a result type that carries the
filesystem state at the raise point, since a Python exception aborts the
script but leaves the files on disk.
-/

/-- The working directory: names of regular files and names of directories
present in it. -/
structure FS where
  files : List String
  dirs : List String
deriving DecidableEq, Repr

/-- Observable call events, used to state ordering properties of the
script.  `run args` records one `subprocess.run(args)` invocation. -/
inductive Event where
  | run (args : List String)
  | unzip_call (dataset : String)
  | organize_call
deriving DecidableEq, Repr

/-- Script state: the working directory plus the trace of recorded events. -/
structure State where
  fs : FS
  trace : List Event
deriving DecidableEq, Repr

/-- Environment: behaviour of the pieces outside the script.
`entries z` is the list of member names archive `z` would extract,
`corrupt z` says whether unpacking `z` raises, and `exit_code args` is the
exit status of the external command `args` (the script never reads it). -/
structure Env where
  entries : String → List String
  corrupt : String → Bool
  exit_code : List String → Int

/-- Result of running a filesystem-mutating piece of Python: either normal
completion or a raised exception; both carry the filesystem at that point. -/
inductive PyFsResult where
  | ok (fs : FS)
  | raised (msg : String) (fs : FS)
deriving DecidableEq, Repr

/-- Result of running a stateful piece of the script (filesystem plus
trace). -/
inductive PyResult where
  | ok (st : State)
  | raised (msg : String) (st : State)
deriving DecidableEq, Repr

/-- Python's `s.split('/')` on the character list of `s`: splitting on the
separator character `/`.  Mirrors CPython semantics for a one-character
separator: the result is always nonempty, and empty segments are kept. -/
def pySplitSlashChars : List Char → List (List Char)
  | [] => [[]]
  | c :: cs =>
    if c = '/' then [] :: pySplitSlashChars cs
    else
      match pySplitSlashChars cs with
      | [] => [[c]]
      | s :: ss => (c :: s) :: ss

/-- Python's `s.split('/')` as a list of strings. -/
def py_split_slash (s : String) : List String :=
  (pySplitSlashChars s.data).map String.mk

/-- Line 19: `zip_file = f"{dataset.split('/')[-1]}.zip"` — split the
identifier on `/`, take the last segment, append `.zip`.  `[-1]` on the
always-nonempty split result is modelled with `getLastD`. -/
def zip_file_name (dataset : String) : String :=
  String.mk ((pySplitSlashChars dataset.data).getLastD []) ++ ".zip"

/-- Insert a file name if not already present (extracting over an existing
file overwrites it, so the name set gains nothing new). -/
def insertName (l : List String) (x : String) : List String :=
  if x ∈ l then l else l ++ [x]

/-- `shutil.unpack_archive zip` with no target directory: extract every
member of the archive into the working directory; raises on a corrupt
archive (modelled as raising before any member is written). -/
def shutil_unpack_archive (env : Env) (zip : String) (fs : FS) : PyFsResult :=
  if env.corrupt zip then .raised "BadZipFile" fs
  else .ok { fs with files := (env.entries zip).foldl insertName fs.files }

/-- `os.remove path`: the file of that name is gone afterwards. -/
def os_remove (path : String) (fs : FS) : FS :=
  { fs with files := fs.files.filter (fun f => f != path) }

/-- Lines 18–22, `unzip_datasets(dataset)`: derive the archive name; if that
file exists, unpack it and then delete it; otherwise do nothing. -/
def unzip_datasets (env : Env) (dataset : String) (fs : FS) : PyFsResult :=
  let zip_file := zip_file_name dataset
  if zip_file ∈ fs.files then
    match shutil_unpack_archive env zip_file fs with
    | .ok fs1 => .ok (os_remove zip_file fs1)
    | .raised m fs1 => .raised m fs1
  else .ok fs

/-- `os.makedirs(path, exist_ok=True)`: create the directory if absent, no
error if it is already present. -/
def os_makedirs (fs : FS) (path : String) : FS :=
  if path ∈ fs.dirs then fs else { fs with dirs := fs.dirs ++ [path] }

/-- Line 26: the fixed category list of `organize_datasets`. -/
def categories : List String :=
  ["fresh", "light_damage", "moderate_damage", "severe_damage"]

/-- Lines 25–30, `organize_datasets()`: one `makedirs` per category; the
file-sorting logic is an unimplemented comment in the source, so nothing
else happens. -/
def organize_datasets (fs : FS) : FS :=
  categories.foldl os_makedirs fs

/-- Line 14: the argument list of the external download command. -/
def kaggle_download_args (dataset : String) : List String :=
  ["kaggle", "datasets", "download", dataset]

/-- `subprocess.run args`: records the invocation and returns the external
exit status, which the caller is free to ignore. -/
def subprocess_run (env : Env) (args : List String) (st : State) :
    Int × State :=
  (env.exit_code args, { st with trace := st.trace ++ [Event.run args] })

/-- Lines 14–15, the body of the fetcher loop for one identifier: run the
download command (result discarded), then call the extractor on the same
identifier.  The extractor call is recorded in the trace. -/
def download_body (env : Env) (dataset : String) (st : State) : PyResult :=
  let st1 := (subprocess_run env (kaggle_download_args dataset) st).2
  let st2 := { st1 with trace := st1.trace ++ [Event.unzip_call dataset] }
  match unzip_datasets env dataset st2.fs with
  | .ok fs1 => .ok { st2 with fs := fs1 }
  | .raised m fs1 => .raised m { st2 with fs := fs1 }

/-- Line 13: `for dataset in datasets:` — sequential traversal of a list of
identifiers, with an exception aborting the rest of the loop. -/
def download_datasets_on (env : Env) (ds : List String) (st : State) :
    PyResult :=
  match ds with
  | [] => .ok st
  | d :: rest =>
    match download_body env d st with
    | .ok st1 => download_datasets_on env rest st1
    | .raised m st1 => .raised m st1

/-- Lines 7–11: the hard-coded dataset list. -/
def datasets : List String :=
  ["username/dataset1", "username/dataset2", "username/dataset3"]

/-- Lines 6–15, `download_datasets()`: the fetcher loop on the hard-coded
list. -/
def download_datasets (env : Env) (st : State) : PyResult :=
  download_datasets_on env datasets st

/-- Lines 32–34, the `__main__` block: `download_datasets()` then
`organize_datasets()`.  The organizer call is recorded in the trace. -/
def main_script (env : Env) (st : State) : PyResult :=
  match download_datasets env st with
  | .ok st1 =>
      .ok { fs := organize_datasets st1.fs
            trace := st1.trace ++ [Event.organize_call] }
  | .raised m st1 => .raised m st1

/-- Modelled from the spec: the event trace the fetcher is specified to
produce for a list of identifiers — per identifier, one external download
invocation immediately followed by one extractor call, in list order. -/
def spec_fetch_trace (ds : List String) : List Event :=
  match ds with
  | [] => []
  | d :: rest =>
    Event.run (kaggle_download_args d) :: Event.unzip_call d ::
      spec_fetch_trace rest

/-! ### Concrete environments and states used to instantiate theorems -/

/-- An archive table where `ds1.zip` holds one member `data.csv` and every
other archive is empty. -/
def ds1Entries : String → List String :=
  fun z => if z = "ds1.zip" then ["data.csv"] else []

/-- No archive is corrupt. -/
def noCorrupt : String → Bool := fun _ => false

/-- Every archive is corrupt. -/
def allCorrupt : String → Bool := fun _ => true

/-- Environment where every download exits 0 and `ds1.zip` is a well-formed
archive holding `data.csv`. -/
def env_ok : Env := ⟨ds1Entries, noCorrupt, fun _ => 0⟩

/-- Environment identical to `env_ok` except that every archive is
corrupt. -/
def env_bad : Env := ⟨ds1Entries, allCorrupt, fun _ => 0⟩

/-- Environment with empty archives whose downloads all exit 0. -/
def env_exit0 : Env := ⟨ds1Entries, noCorrupt, fun _ => 0⟩

/-- Environment agreeing with `env_exit0` on archives but whose downloads
all exit 1. -/
def env_exit1 : Env := ⟨ds1Entries, noCorrupt, fun _ => 1⟩

/-- A working directory holding exactly the archive `ds1.zip`. -/
def fs_ds1 : FS := ⟨["ds1.zip"], []⟩

/-- An empty working directory. -/
def fs_empty : FS := ⟨[], []⟩

/-- Initial script state: empty working directory, empty trace. -/
def st_empty : State := ⟨fs_empty, []⟩

/-- The final state of `main_script env_ok st_empty`: no archive ever
exists, so only the trace grows and the four category directories appear. -/
def st_main_final : State :=
  ⟨⟨[], ["fresh", "light_damage", "moderate_damage", "severe_damage"]⟩,
   [Event.run (kaggle_download_args "username/dataset1"),
    Event.unzip_call "username/dataset1",
    Event.run (kaggle_download_args "username/dataset2"),
    Event.unzip_call "username/dataset2",
    Event.run (kaggle_download_args "username/dataset3"),
    Event.unzip_call "username/dataset3",
    Event.organize_call]⟩

/-! ### Lemmas about the split -/

theorem pySplitSlashChars_ne_nil (cs : List Char) :
    pySplitSlashChars cs ≠ [] := by
  induction cs with
  | nil => simp [pySplitSlashChars]
  | cons c cs ih =>
    unfold pySplitSlashChars
    by_cases hc : c = '/'
    · simp [hc]
    · simp only [hc, if_false]
      cases hP : pySplitSlashChars cs with
      | nil => simp
      | cons s ss => simp

theorem pySplitSlashChars_no_slash (cs : List Char)
    (h : ∀ c ∈ cs, c ≠ '/') : pySplitSlashChars cs = [cs] := by
  induction cs with
  | nil => rfl
  | cons c cs ih =>
    have hc : c ≠ '/' := h c (List.mem_cons_self c cs)
    have ih2 : pySplitSlashChars cs = [cs] :=
      ih (fun x hx => h x (List.mem_cons_of_mem c hx))
    unfold pySplitSlashChars
    simp [hc, ih2]

theorem pySplitSlashChars_append (xs ys : List Char) :
    pySplitSlashChars (xs ++ '/' :: ys) =
      pySplitSlashChars xs ++ pySplitSlashChars ys := by
  induction xs with
  | nil => simp [pySplitSlashChars]
  | cons c cs ih =>
    by_cases hc : c = '/'
    · subst hc
      simp only [List.cons_append]
      unfold pySplitSlashChars
      simp [ih]
      rw [pySplitSlashChars.eq_def]
    · simp only [List.cons_append]
      unfold pySplitSlashChars
      simp only [hc, if_false]
      rw [ih]
      cases hP : pySplitSlashChars cs with
      | nil => exact absurd hP (pySplitSlashChars_ne_nil cs)
      | cons s ss =>
        simp
        rw [pySplitSlashChars.eq_def]

theorem getLastD_append_singleton {α : Type} (l : List α) (x d : α) :
    (l ++ [x]).getLastD d = x := by
  induction l with
  | nil => rfl
  | cons a l ih =>
    cases l with
    | nil => rfl
    | cons b l => simpa using ih

theorem String.mk_data (s : String) : String.mk s.data = s := rfl

/-! ### Lemmas about filesystem primitives -/

theorem mem_insertName (l : List String) (a x : String) :
    x ∈ insertName l a ↔ x ∈ l ∨ x = a := by
  unfold insertName
  by_cases h : a ∈ l
  · simp only [h, if_true]
    constructor
    · exact Or.inl
    · rintro (hx | hx)
      · exact hx
      · exact hx ▸ h
  · simp [h]

theorem mem_foldl_insertName (es l : List String) (x : String) :
    x ∈ es.foldl insertName l ↔ x ∈ l ∨ x ∈ es := by
  induction es generalizing l with
  | nil => simp
  | cons e es ih =>
    simp only [List.foldl_cons, ih, mem_insertName, List.mem_cons]
    tauto

theorem os_remove_files (path : String) (fs : FS) (x : String) :
    x ∈ (os_remove path fs).files ↔ x ∈ fs.files ∧ x ≠ path := by
  simp [os_remove, List.mem_filter]

theorem os_remove_dirs (path : String) (fs : FS) :
    (os_remove path fs).dirs = fs.dirs := rfl

theorem os_makedirs_files (fs : FS) (p : String) :
    (os_makedirs fs p).files = fs.files := by
  unfold os_makedirs
  by_cases h : p ∈ fs.dirs <;> simp [h]

theorem mem_os_makedirs_dirs (fs : FS) (p q : String) :
    q ∈ (os_makedirs fs p).dirs ↔ q ∈ fs.dirs ∨ q = p := by
  unfold os_makedirs
  by_cases h : p ∈ fs.dirs
  · simp only [h, if_true]
    constructor
    · exact Or.inl
    · rintro (hq | hq)
      · exact hq
      · exact hq ▸ h
  · simp [h]

theorem os_makedirs_of_mem (fs : FS) (p : String) (h : p ∈ fs.dirs) :
    os_makedirs fs p = fs := by
  simp [os_makedirs, h]

theorem foldl_os_makedirs_files (l : List String) (fs : FS) :
    (l.foldl os_makedirs fs).files = fs.files := by
  induction l generalizing fs with
  | nil => rfl
  | cons p l ih => simp [List.foldl_cons, ih, os_makedirs_files]

theorem mem_foldl_os_makedirs_dirs (l : List String) (fs : FS) (q : String) :
    q ∈ (l.foldl os_makedirs fs).dirs ↔ q ∈ fs.dirs ∨ q ∈ l := by
  induction l generalizing fs with
  | nil => simp
  | cons p l ih =>
    simp only [List.foldl_cons, ih, mem_os_makedirs_dirs, List.mem_cons]
    tauto

theorem foldl_os_makedirs_of_mem (l : List String) (fs : FS)
    (h : ∀ p ∈ l, p ∈ fs.dirs) : l.foldl os_makedirs fs = fs := by
  induction l with
  | nil => rfl
  | cons p l ih =>
    have hp : p ∈ fs.dirs := h p (List.mem_cons_self p l)
    rw [List.foldl_cons, os_makedirs_of_mem fs p hp]
    exact ih (fun q hq => h q (List.mem_cons_of_mem p hq))

/-! ### Lemmas about the fetcher loop -/

theorem download_body_trace (env : Env) (d : String) (st st1 : State)
    (h : download_body env d st = .ok st1) :
    st1.trace = st.trace ++
      [Event.run (kaggle_download_args d), Event.unzip_call d] := by
  unfold download_body subprocess_run at h
  cases hz : unzip_datasets env d st.fs with
  | ok fs1 =>
    simp [hz] at h
    rw [← h]
  | raised m fs1 =>
    simp [hz] at h

theorem download_datasets_on_trace (env : Env) (ds : List String) :
    ∀ st st1 : State, download_datasets_on env ds st = .ok st1 →
      st1.trace = st.trace ++ spec_fetch_trace ds := by
  induction ds with
  | nil =>
    intro st st1 h
    unfold download_datasets_on at h
    cases h
    simp [spec_fetch_trace]
  | cons d rest ih =>
    intro st st1 h
    unfold download_datasets_on at h
    cases hb : download_body env d st with
    | ok stm =>
      rw [hb] at h
      have h1 := download_body_trace env d st stm hb
      have h2 := ih stm st1 h
      rw [h2, h1, spec_fetch_trace]
      simp
    | raised m stm =>
      rw [hb] at h
      cases h

theorem unzip_datasets_env_congr (e1 e2 : Env)
    (hent : e1.entries = e2.entries) (hcor : e1.corrupt = e2.corrupt)
    (d : String) (fs : FS) :
    unzip_datasets e1 d fs = unzip_datasets e2 d fs := by
  unfold unzip_datasets shutil_unpack_archive
  rw [hent, hcor]

theorem download_body_env_congr (e1 e2 : Env)
    (hent : e1.entries = e2.entries) (hcor : e1.corrupt = e2.corrupt)
    (d : String) (st : State) :
    download_body e1 d st = download_body e2 d st := by
  unfold download_body subprocess_run
  simp only [unzip_datasets_env_congr e1 e2 hent hcor]

theorem download_datasets_on_env_congr (e1 e2 : Env)
    (hent : e1.entries = e2.entries) (hcor : e1.corrupt = e2.corrupt)
    (ds : List String) :
    ∀ st : State, download_datasets_on e1 ds st =
      download_datasets_on e2 ds st := by
  induction ds with
  | nil => intro st; rfl
  | cons d rest ih =>
    intro st
    unfold download_datasets_on
    rw [download_body_env_congr e1 e2 hent hcor d st]
    cases download_body e2 d st with
    | ok st1 => exact ih st1
    | raised m st1 => rfl

/-! ### The claims -/

/-- C1: for a dataset identifier whose derived archive `name.zip` exists in
the working directory, `unzip_datasets` first unpacks the archive (all its
members land in the working directory, flat) and only then deletes it: the
result is exactly `os_remove` applied to the unpacked state, every member is
present afterwards, and the archive itself is gone.  Hypotheses delimit the
environment: the archive is well formed and does not contain a member named
like the archive itself. -/
theorem C1_unzip_extracts_and_removes_archive (env : Env) (d : String)
    (fs : FS) (h1 : zip_file_name d ∈ fs.files)
    (h2 : env.corrupt (zip_file_name d) = false)
    (h3 : zip_file_name d ∉ env.entries (zip_file_name d)) :
    ∃ fsMid : FS,
      shutil_unpack_archive env (zip_file_name d) fs = .ok fsMid ∧
      unzip_datasets env d fs = .ok (os_remove (zip_file_name d) fsMid) ∧
      (∀ e ∈ env.entries (zip_file_name d),
        e ∈ (os_remove (zip_file_name d) fsMid).files) ∧
      zip_file_name d ∉ (os_remove (zip_file_name d) fsMid).files := by
  refine ⟨{ fs with files :=
      (env.entries (zip_file_name d)).foldl insertName fs.files },
    ?_, ?_, ?_, ?_⟩
  · simp [shutil_unpack_archive, h2]
  · simp [unzip_datasets, shutil_unpack_archive, h1, h2]
  · intro e he
    rw [os_remove_files]
    constructor
    · exact (mem_foldl_insertName _ _ _).2 (Or.inr he)
    · intro heq
      exact h3 (heq ▸ he)
  · intro hmem
    exact ((os_remove_files _ _ _).1 hmem).2 rfl

theorem C1_unzip_witness :
    ∃ fsMid : FS,
      shutil_unpack_archive env_ok (zip_file_name "a/ds1") fs_ds1 =
        .ok fsMid ∧
      unzip_datasets env_ok "a/ds1" fs_ds1 =
        .ok (os_remove (zip_file_name "a/ds1") fsMid) ∧
      (∀ e ∈ env_ok.entries (zip_file_name "a/ds1"),
        e ∈ (os_remove (zip_file_name "a/ds1") fsMid).files) ∧
      zip_file_name "a/ds1" ∉
        (os_remove (zip_file_name "a/ds1") fsMid).files :=
  C1_unzip_extracts_and_removes_archive env_ok "a/ds1" fs_ds1
    (by decide) rfl (by decide)

/-- C2: when the derived archive `name.zip` does not exist in the working
directory, `unzip_datasets` returns normally with the filesystem completely
unchanged — a silent no-op. -/
theorem C2_unzip_missing_archive_noop (env : Env) (d : String) (fs : FS)
    (h : zip_file_name d ∉ fs.files) :
    unzip_datasets env d fs = .ok fs := by
  simp [unzip_datasets, h]

theorem C2_unzip_witness :
    unzip_datasets env_ok "a/ds1" fs_empty = .ok fs_empty :=
  C2_unzip_missing_archive_noop env_ok "a/ds1" fs_empty (by decide)

/-- C3: for an identifier of the form `owner/name` (with `name` free of the
separator), the derived archive filename is exactly `name.zip`: the split on
`/` puts `name` last and the extractor appends `.zip`. -/
theorem C3_zip_file_name_of_owner_name (owner name : String)
    (h : ∀ c ∈ name.data, c ≠ '/') :
    zip_file_name (owner ++ "/" ++ name) = name ++ ".zip" := by
  unfold zip_file_name
  have hdata : (owner ++ "/" ++ name).data =
      owner.data ++ '/' :: name.data := by
    rw [String.data_append, String.data_append, List.append_assoc]
    rfl
  rw [hdata, pySplitSlashChars_append, pySplitSlashChars_no_slash name.data h,
    getLastD_append_singleton, String.mk_data]

theorem C3_zip_file_name_witness :
    zip_file_name ("username" ++ "/" ++ "dataset1") = "dataset1" ++ ".zip" :=
  C3_zip_file_name_of_owner_name "username" "dataset1" (by decide)

/-- C4: the organizer is idempotent — a second run returns the first run's
state unchanged (and, being a total function, raises no error) — and after
running it all four category directories are present. -/
theorem C4_organize_idempotent (fs : FS) :
    organize_datasets (organize_datasets fs) = organize_datasets fs ∧
    "fresh" ∈ (organize_datasets fs).dirs ∧
    "light_damage" ∈ (organize_datasets fs).dirs ∧
    "moderate_damage" ∈ (organize_datasets fs).dirs ∧
    "severe_damage" ∈ (organize_datasets fs).dirs := by
  have hmem : ∀ p ∈ categories, p ∈ (organize_datasets fs).dirs := by
    intro p hp
    exact (mem_foldl_os_makedirs_dirs categories fs p).2 (Or.inr hp)
  refine ⟨?_, ?_, ?_, ?_, ?_⟩
  · exact foldl_os_makedirs_of_mem categories (organize_datasets fs) hmem
  · exact hmem "fresh" (by decide)
  · exact hmem "light_damage" (by decide)
  · exact hmem "moderate_damage" (by decide)
  · exact hmem "severe_damage" (by decide)

/-- C5: on a successful run of the `__main__` block, the recorded trace is
exactly: for each identifier of the hard-coded list in order, one external
download invocation immediately followed by one extractor call on the same
identifier, and after all of these a single organizer call. -/
theorem C5_main_trace_order (env : Env) (st st1 : State)
    (h : main_script env st = .ok st1) :
    st1.trace =
      st.trace ++ spec_fetch_trace datasets ++ [Event.organize_call] := by
  unfold main_script download_datasets at h
  cases hd : download_datasets_on env datasets st with
  | ok st2 =>
    rw [hd] at h
    injection h with h1
    rw [← h1]
    have ht := download_datasets_on_trace env datasets st st2 hd
    simp [ht]
  | raised m st2 =>
    rw [hd] at h
    cases h

theorem C5_main_trace_witness :
    st_main_final.trace =
      st_empty.trace ++ spec_fetch_trace datasets ++ [Event.organize_call] :=
  C5_main_trace_order env_ok st_empty st_main_final (by decide)

/-- C6: the fetcher's behaviour is independent of the exit status of the
external download command: two environments that agree on archive contents
and corruption but return arbitrarily different exit codes yield identical
runs of the fetcher loop — it never branches on the return value. -/
theorem C6_fetcher_ignores_exit_status (e1 e2 : Env)
    (hent : e1.entries = e2.entries) (hcor : e1.corrupt = e2.corrupt)
    (ds : List String) (st : State) :
    download_datasets_on e1 ds st = download_datasets_on e2 ds st :=
  download_datasets_on_env_congr e1 e2 hent hcor ds st

theorem C6_fetcher_witness :
    download_datasets_on env_exit0 datasets st_empty =
      download_datasets_on env_exit1 datasets st_empty :=
  C6_fetcher_ignores_exit_status env_exit0 env_exit1 rfl rfl
    datasets st_empty

/-- C7: on an empty dataset list the fetcher loop returns its input state
unchanged and normally: no external command is recorded, nothing mutates,
no error is raised. -/
theorem C7_empty_list_noop (env : Env) (st : State) :
    download_datasets_on env [] st = .ok st := rfl

/-- C8: the organizer leaves the files of the working directory untouched
and its only effect on directories is to make exactly the four category
directories present: afterwards a directory is present iff it was already
present or is one of the four categories. -/
theorem C8_organize_frame (fs : FS) :
    (organize_datasets fs).files = fs.files ∧
    ∀ p : String,
      p ∈ (organize_datasets fs).dirs ↔ p ∈ fs.dirs ∨ p ∈ categories :=
  ⟨foldl_os_makedirs_files categories fs,
   fun p => mem_foldl_os_makedirs_dirs categories fs p⟩

/-- C9: the filename derivation is total — the split always yields a
nonempty list, so taking the last segment never fails — and on a
separator-free identifier `s` it returns the whole string with `.zip`
appended. -/
theorem C9_zip_file_name_total (s : String) :
    py_split_slash s ≠ [] ∧
      ((∀ c ∈ s.data, c ≠ '/') → zip_file_name s = s ++ ".zip") := by
  constructor
  · unfold py_split_slash
    intro hmap
    exact pySplitSlashChars_ne_nil s.data (List.map_eq_nil_iff.1 hmap)
  · intro h
    unfold zip_file_name
    rw [pySplitSlashChars_no_slash s.data h,
      show (([s.data] : List (List Char)).getLastD [] = s.data) from
        getLastD_append_singleton [] s.data [],
      String.mk_data]

theorem C9_zip_file_name_total_witness :
    py_split_slash "dataset1" ≠ [] ∧
      zip_file_name "dataset1" = "dataset1" ++ ".zip" :=
  ⟨(C9_zip_file_name_total "dataset1").1,
   (C9_zip_file_name_total "dataset1").2 (by decide)⟩

/-- C10: when unpacking raises (corrupt archive), `unzip_datasets`
propagates the exception and the removal step is never reached — the
post-exception filesystem is the input one, in which the archive is still
present. -/
theorem C10_corrupt_archive_not_removed (env : Env) (d : String) (fs : FS)
    (h1 : zip_file_name d ∈ fs.files)
    (h2 : env.corrupt (zip_file_name d) = true) :
    unzip_datasets env d fs = .raised "BadZipFile" fs ∧
      zip_file_name d ∈ fs.files := by
  constructor
  · simp [unzip_datasets, shutil_unpack_archive, h1, h2]
  · exact h1

theorem C10_corrupt_witness :
    unzip_datasets env_bad "a/ds1" fs_ds1 = .raised "BadZipFile" fs_ds1 ∧
      zip_file_name "a/ds1" ∈ fs_ds1.files :=
  C10_corrupt_archive_not_removed env_bad "a/ds1" fs_ds1 (by decide) rfl
